import Mathlib

/-!
Shallow embedding of the SportVisionAI FastAPI backend's core:
the video lifecycle, analysis attachment, recommendation scoring and
catalog operations of `services/video_service.py` together with the
data model of `models/video.py` and the analysis stubs of
`utils/video_utils.py`.

Conventions of the embedding:
* Python `datetime` values are modelled as integers (seconds); the
  `datetime.now()` calls are explicit time parameters, and a subtraction
  of two datetimes followed by `.days` is floor division by 86400
  (Python `timedelta` normalises so that `.days` is the floor).
* Python dictionaries (`videos_db`, `analyses_db`) are association
  lists in insertion order (Python dicts preserve insertion order and
  assignment to an existing key keeps its position).
* `HTTPException` is an explicit error value; fallible operations
  return `Except HTTPError`.
* `uuid.uuid4()` results are explicit string parameters.
* External file-system effects (saving an upload, removing a file) are
  modelled by boolean oracles for success/failure; they are only used
  where the code branches on them.
* Python's stable `list.sort(key=…, reverse=True)` is modelled by a
  stable insertion sort on the sort key, descending.
* JSON-like payload dictionaries are modelled by the inductive `JValue`.
-/

/-- JSON-like values, for the `result_data` payload dictionaries built in
`analyze_video` (`video_service.py`) and `analyze_video_content`
(`video_utils.py`). Objects keep their key order. -/
inductive JValue where
  | str : String → JValue
  | num : ℚ → JValue
  | arr : List JValue → JValue
  | obj : List (String × JValue) → JValue

/-- Lookup of a key in a `JValue.obj` (first occurrence), `none` on other
shapes or a missing key. -/
def JValue.objLookup : JValue → String → Option JValue
  | .obj l, k => (l.find? (fun p => p.1 == k)).map (fun p => p.2)
  | _, _ => none

/-- The list of keys of a `JValue.obj`, `[]` on other shapes. -/
def JValue.objKeys : JValue → List String
  | .obj l => l.map (fun p => p.1)
  | _ => []

/-- `models/video.py`: `VideoStatus(str, Enum)`. -/
inductive VideoStatus where
  | UPLOADING
  | PROCESSING
  | COMPLETED
  | FAILED
deriving DecidableEq, Repr

/-- `models/video.py`: `VideoAnalysis`. `result_data: dict` is a `JValue`,
timestamps are integer seconds, `confidence_score` is a rational. -/
structure VideoAnalysis where
  id : String
  video_id : String
  analysis_type : String
  result_data : JValue
  confidence_score : ℚ
  created_at : ℤ

/-- `models/video.py`: `Video`. `match_date`, `created_at`, `updated_at`
are integer seconds; `analyses: Optional[List[VideoAnalysis]] = []`. -/
structure Video where
  id : String
  title : String
  description : Option String := none
  file_path : String
  file_size : ℤ
  duration : Option ℚ := none
  status : VideoStatus
  sport_type : Option String := none
  match_date : Option ℤ := none
  teams : Option (List String) := none
  created_at : ℤ
  updated_at : ℤ
  analyses : Option (List VideoAnalysis) := some []

/-- `models/video.py`: `VideoAnalysisRequest`. `parameters: Optional[dict]`. -/
structure VideoAnalysisRequest where
  analysis_type : String
  parameters : Option JValue := none

/-- `models/video.py`: `VideoRecommendation`. The `reason` string is not
modelled: the code builds it by joining a Python `set` whose iteration
order is unspecified; no claim refers to it. -/
structure VideoRecommendation where
  video_id : String
  title : String
  similarity_score : ℚ
deriving DecidableEq, Repr

/-- `fastapi.HTTPException` as raised by `video_service.py`. -/
structure HTTPError where
  status_code : ℕ
  detail : String
deriving DecidableEq, Repr

/-- The mutable state of the `VideoService` singleton: the two in-memory
dictionaries `videos_db` and `analyses_db`, in insertion order. -/
structure ServiceState where
  videos_db : List (String × Video)
  analyses_db : List (String × VideoAnalysis)

/-- Python `dict.get(k)` on an insertion-ordered association list. -/
def dbGet {α : Type} : List (String × α) → String → Option α
  | [], _ => none
  | p :: ps, k => if p.1 == k then some p.2 else dbGet ps k

/-- Python `db[k] = v`: replace in place if the key exists (keeping its
position), otherwise append. -/
def dbSet {α : Type} : List (String × α) → String → α → List (String × α)
  | [], k, v => [(k, v)]
  | p :: ps, k, v => if p.1 == k then (k, v) :: ps else p :: dbSet ps k v

/-- Python `del db[k]`. On an association list with unique keys this is
removal of every pair at that key. -/
def dbDel {α : Type} (db : List (String × α)) (k : String) : List (String × α) :=
  db.filter (fun p => p.1 != k)

theorem dbGet_dbSet_self {α : Type} (db : List (String × α)) (k : String) (v : α) :
    dbGet (dbSet db k v) k = some v := by
  induction db with
  | nil => simp [dbGet, dbSet]
  | cons p ps ih =>
    by_cases h : p.1 == k
    · simp [dbGet, dbSet, h]
    · simp [dbGet, dbSet, h, ih]

theorem dbGet_dbSet_ne {α : Type} (db : List (String × α)) (k k' : String) (v : α)
    (hne : k' ≠ k) : dbGet (dbSet db k v) k' = dbGet db k' := by
  induction db with
  | nil =>
    have : ¬ (k == k') := by simpa using fun h => hne h.symm
    simp [dbGet, dbSet, this]
  | cons p ps ih =>
    by_cases h : p.1 == k
    · have hp : p.1 = k := by simpa using h
      have hkk' : ¬ (k == k') := by simpa using fun hx => hne hx.symm
      simp [dbGet, dbSet, h, hp, hkk']
    · by_cases h' : p.1 == k'
      · simp [dbGet, dbSet, h, h']
      · simp [dbGet, dbSet, h, h', ih]

/-! ### Python's stable sort and slicing -/

/-- Insert `x` into `l` before the first element whose key is `≤ key x`.
Together with `sortDescBy` this models Python's stable
`list.sort(key=…, reverse=True)`: descending, with equal keys kept in
their original relative order. -/
def insertDescBy {α β : Type} [LinearOrder β] (key : α → β) (x : α) :
    List α → List α
  | [] => [x]
  | y :: ys => if key y ≤ key x then x :: y :: ys else y :: insertDescBy key x ys

/-- Stable insertion sort by `key`, descending. -/
def sortDescBy {α β : Type} [LinearOrder β] (key : α → β) : List α → List α
  | [] => []
  | x :: xs => insertDescBy key x (sortDescBy key xs)

theorem insertDescBy_perm {α β : Type} [LinearOrder β] (key : α → β) (x : α)
    (l : List α) : (insertDescBy key x l).Perm (x :: l) := by
  induction l with
  | nil => exact List.Perm.refl _
  | cons y ys ih =>
    simp only [insertDescBy]
    split
    · exact List.Perm.refl _
    · exact (ih.cons y).trans (List.Perm.swap x y ys)

theorem sortDescBy_perm {α β : Type} [LinearOrder β] (key : α → β)
    (l : List α) : (sortDescBy key l).Perm l := by
  induction l with
  | nil => exact List.Perm.refl _
  | cons x xs ih =>
    exact (insertDescBy_perm key x (sortDescBy key xs)).trans (ih.cons x)

theorem mem_insertDescBy {α β : Type} [LinearOrder β] (key : α → β) (x z : α)
    (l : List α) (h : z ∈ insertDescBy key x l) : z = x ∨ z ∈ l := by
  have := (insertDescBy_perm key x l).mem_iff.mp h
  simpa using this

theorem insertDescBy_sorted {α β : Type} [LinearOrder β] (key : α → β) (x : α)
    (l : List α) (h : l.Pairwise (fun a b => key b ≤ key a)) :
    (insertDescBy key x l).Pairwise (fun a b => key b ≤ key a) := by
  induction l with
  | nil => simp [insertDescBy]
  | cons y ys ih =>
    simp only [insertDescBy]
    rcases List.pairwise_cons.mp h with ⟨hy, hys⟩
    split
    · rename_i hle
      refine List.pairwise_cons.mpr ⟨?_, h⟩
      intro z hz
      rcases List.mem_cons.mp hz with rfl | hz
      · exact hle
      · exact le_trans (hy z hz) hle
    · rename_i hgt
      push_neg at hgt
      refine List.pairwise_cons.mpr ⟨?_, ih hys⟩
      intro z hz
      rcases mem_insertDescBy key x z ys hz with rfl | hz
      · exact le_of_lt hgt
      · exact hy z hz

theorem sortDescBy_sorted {α β : Type} [LinearOrder β] (key : α → β)
    (l : List α) : (sortDescBy key l).Pairwise (fun a b => key b ≤ key a) := by
  induction l with
  | nil => simp [sortDescBy]
  | cons x xs ih => exact insertDescBy_sorted key x _ ih

/-- Stability at the level of a single insertion: filtering by any key
value commutes with the insertion. -/
theorem insertDescBy_filter {α β : Type} [LinearOrder β] (key : α → β) (x : α)
    (l : List α) (c : β) :
    (insertDescBy key x l).filter (fun a => key a == c)
      = if key x == c then x :: l.filter (fun a => key a == c)
        else l.filter (fun a => key a == c) := by
  induction l with
  | nil => by_cases hx : key x == c <;> simp [insertDescBy, List.filter, hx]
  | cons y ys ih =>
    simp only [insertDescBy]
    split
    · rename_i hle
      by_cases hx : key x == c <;> simp [List.filter, hx]
    · rename_i hgt
      push_neg at hgt
      by_cases hx : key x == c
      · have hxc : key x = c := by simpa using hx
        have hyc : ¬ (key y == c) := by
          simp only [beq_iff_eq]
          intro hy
          exact absurd (hy.trans hxc.symm) (ne_of_gt hgt)
        simp [List.filter, hyc, ih, hx]
      · by_cases hy : key y == c <;> simp [List.filter, hy, ih, hx]

/-- Stability of the sort: for every key value `c`, the elements with key
`c` appear in the sorted list exactly in their original order. -/
theorem sortDescBy_filter {α β : Type} [LinearOrder β] (key : α → β)
    (l : List α) (c : β) :
    (sortDescBy key l).filter (fun a => key a == c)
      = l.filter (fun a => key a == c) := by
  induction l with
  | nil => simp [sortDescBy]
  | cons x xs ih =>
    simp only [sortDescBy, insertDescBy_filter]
    by_cases hx : key x == c <;> simp [List.filter, hx, ih]

/-- Python list slicing `xs[start:stop]` (step 1) on a list, with
Python's normalisation of negative and out-of-range indices. -/
def pySlice {α : Type} (xs : List α) (start stop : ℤ) : List α :=
  let n : ℤ := xs.length
  let s := if start < 0 then max 0 (n + start) else min start n
  let e := if stop < 0 then max 0 (n + stop) else min stop n
  (xs.take e.toNat).drop s.toNat

/-- For non-negative in-range-clamped `start`/`stop`, a Python slice is
drop-then-take. -/
theorem pySlice_nonneg {α : Type} (xs : List α) (start len : ℤ)
    (hs : 0 ≤ start) (hl : 0 ≤ len) :
    pySlice xs start (start + len) = (xs.drop start.toNat).take len.toNat := by
  unfold pySlice
  have h1 : ¬ start < 0 := not_lt.mpr hs
  have h2 : ¬ start + len < 0 := by omega
  simp only [h1, h2, if_false]
  rw [List.drop_take]
  by_cases hc : start ≤ (xs.length : ℤ)
  · have hmins : (min start (xs.length : ℤ)).toNat = start.toNat := by omega
    rw [hmins, List.take_eq_take]
    simp only [List.length_drop]
    omega
  · have hmins : (min start (xs.length : ℤ)).toNat = xs.length := by omega
    have hd1 : xs.drop xs.length = [] := List.drop_eq_nil_of_le le_rfl
    have hd2 : xs.drop start.toNat = [] := List.drop_eq_nil_of_le (by omega)
    rw [hmins, hd1, hd2]
    simp

/-- A slice starting at or beyond the length is empty. -/
theorem pySlice_empty_of_start_ge {α : Type} (xs : List α) (start stop : ℤ)
    (h : (xs.length : ℤ) ≤ start) : pySlice xs start stop = [] := by
  unfold pySlice
  have h1 : ¬ start < 0 := by omega
  simp only [h1, if_false]
  apply List.drop_eq_nil_of_le
  rw [List.length_take]
  omega

/-- A slice whose non-negative stop is at most its start is empty. -/
theorem pySlice_empty_of_stop_le {α : Type} (xs : List α) (start stop : ℤ)
    (h0 : 0 ≤ stop) (h : stop ≤ start) : pySlice xs start stop = [] := by
  unfold pySlice
  have h1 : ¬ start < 0 := by omega
  have h2 : ¬ stop < 0 := by omega
  simp only [h1, h2, if_false]
  apply List.drop_eq_nil_of_le
  rw [List.length_take]
  omega

/-! ### `services/video_service.py`: the operations -/

/-- Python `str.rfind` for a single character on a character list:
the greatest index holding it, or `-1`. -/
def pyRfind (c : Char) (s : List Char) : ℤ :=
  match s.reverse.findIdx? (fun x => x == c) with
  | none => -1
  | some i => (s.length : ℤ) - 1 - i

/-- `os.path.splitext(filename)[1]`: the extension including the dot,
split at the last `.` after the last `/`, except that a leading run of
dots in the final path component is not a split point. -/
def splitextExt (filename : String) : String :=
  let p := filename.toList
  let sepIndex := pyRfind '/' p
  let dotIndex := pyRfind '.' p
  if sepIndex < dotIndex then
    if ((p.drop (sepIndex + 1).toNat).take (dotIndex - sepIndex - 1).toNat).any
        (fun ch => ch != '.') then
      String.mk (p.drop dotIndex.toNat)
    else ""
  else ""

/-- Python `str.lower`, character by character (ASCII case mapping; the
file extensions compared here are ASCII). -/
def pyLowerChar (c : Char) : Char :=
  if 'A' ≤ c ∧ c ≤ 'Z' then Char.ofNat (c.toNat + 32) else c

/-- Python `str.lower` on a string. -/
def pyLower (s : String) : String := String.mk (s.toList.map pyLowerChar)

/-- The `allowed_extensions` set of `upload_video`. -/
def allowed_extensions : List String := [".mp4", ".avi", ".mov", ".mkv", ".webm"]

/-- The synchronous prefix of `VideoService.upload_video`, up to (and
excluding) the `await self._process_video(video_id)` call: extension
and size validation, file save, record creation with status
`UPLOADING`, insertion into `videos_db`. `video_id` stands for
`uuid.uuid4()`; `t_created` and `t_updated` for the two
`datetime.now()` calls in evaluation order; `save_err` is `some msg`
when the file write raises. -/
def upload_create (s : ServiceState) (filename : String) (file_size : ℤ)
    (title : String) (description sport_type : Option String)
    (match_date : Option ℤ) (teams : Option (List String))
    (video_id : String) (t_created t_updated : ℤ) (save_err : Option String) :
    Except HTTPError (ServiceState × Video) :=
  let file_extension := pyLower (splitextExt filename)
  if ¬ allowed_extensions.contains file_extension then
    .error ⟨400, "지원하지 않는 파일 형식입니다."⟩
  else if file_size > 100 * 1024 * 1024 then
    .error ⟨400, "파일 크기는 100MB를 초과할 수 없습니다."⟩
  else
    match save_err with
    | some msg => .error ⟨500, "파일 저장 중 오류가 발생했습니다: " ++ msg⟩
    | none =>
      let file_path := "uploads/" ++ video_id ++ file_extension
      let video : Video := {
        id := video_id
        title := title
        description := description
        file_path := file_path
        file_size := file_size
        status := .UPLOADING
        sport_type := sport_type
        match_date := match_date
        teams := teams
        created_at := t_created
        updated_at := t_updated }
      .ok ({ s with videos_db := dbSet s.videos_db video_id video }, video)

/-- First half of `VideoService._process_video`: look up the video
(missing id is the early `return`) and set `status = PROCESSING`,
`updated_at = now`. -/
def process_step1 (s : ServiceState) (video_id : String) (t : ℤ) : ServiceState :=
  match dbGet s.videos_db video_id with
  | none => s
  | some v =>
    let v' := { v with status := VideoStatus.PROCESSING, updated_at := t }
    { s with videos_db := dbSet s.videos_db video_id v' }

/-- Second half of `_process_video`, after the placeholder
`asyncio.sleep(3)`: `status = COMPLETED` on success; an exception in
the `try` body is caught and the handler sets `status = FAILED`.
Either way `updated_at = now`. -/
def process_step2 (s : ServiceState) (video_id : String) (t : ℤ) (ok : Bool) :
    ServiceState :=
  match dbGet s.videos_db video_id with
  | none => s
  | some v =>
    let v' := { v with
      status := if ok then VideoStatus.COMPLETED else VideoStatus.FAILED
      updated_at := t }
    { s with videos_db := dbSet s.videos_db video_id v' }

/-- `VideoService._process_video` in full. -/
def process_video (s : ServiceState) (video_id : String)
    (t_processing t_done : ℤ) (ok : Bool) : ServiceState :=
  process_step2 (process_step1 s video_id t_processing) video_id t_done ok

/-- `VideoService.upload_video`. NOTE: the code `await`s
`self._process_video(video_id)` before `return video`, so the pipeline
runs to completion inside the upload call, and the returned record is
the object as mutated by the pipeline (the dict entry and the returned
reference are the same Python object). -/
def upload_video (s : ServiceState) (filename : String) (file_size : ℤ)
    (title : String) (description sport_type : Option String)
    (match_date : Option ℤ) (teams : Option (List String))
    (video_id : String) (t_created t_updated : ℤ) (save_err : Option String)
    (t_processing t_done : ℤ) (process_ok : Bool) :
    Except HTTPError (ServiceState × Video) := do
  let (s1, video) ← upload_create s filename file_size title description
    sport_type match_date teams video_id t_created t_updated save_err
  let s2 := process_video s1 video_id t_processing t_done process_ok
  return (s2, (dbGet s2.videos_db video_id).getD video)

/-- `VideoService.get_video_history`: all of `videos_db.values()` sorted
by `created_at` descending (Python's stable sort), then the Python
slice `[offset : offset + limit]`. -/
def get_video_history (s : ServiceState) (limit offset : ℤ) : List Video :=
  pySlice (sortDescBy Video.created_at (s.videos_db.map (fun p => p.2)))
    offset (offset + limit)

/-- `VideoService.get_video_by_id`. -/
def get_video_by_id (s : ServiceState) (video_id : String) : Option Video :=
  dbGet s.videos_db video_id

/-- The `result_data` dictionary literal built inline in
`VideoService.analyze_video` (the provider in `video_utils.py` is never
invoked there): the same shape for every `analysis_type`. -/
def analyze_result_data (analysis_type : String) (parameters : Option JValue) :
    JValue :=
  .obj [("analysis_type", .str analysis_type),
        ("parameters", parameters.getD (.obj [])),
        ("results", .obj [("detected_events", .arr []),
                          ("statistics", .obj []),
                          ("highlights", .arr [])])]

/-- `VideoService.analyze_video`. `analysis_id` stands for
`uuid.uuid4()` and `t` for `datetime.now()`. -/
def analyze_video (s : ServiceState) (video_id : String)
    (req : VideoAnalysisRequest) (analysis_id : String) (t : ℤ) :
    Except HTTPError (ServiceState × VideoAnalysis) :=
  match get_video_by_id s video_id with
  | none => .error ⟨404, "영상을 찾을 수 없습니다."⟩
  | some video =>
    if video.status ≠ VideoStatus.COMPLETED then
      .error ⟨400, "영상 처리가 완료되지 않았습니다."⟩
    else
      let analysis : VideoAnalysis := {
        id := analysis_id
        video_id := video_id
        analysis_type := req.analysis_type
        result_data := analyze_result_data req.analysis_type req.parameters
        confidence_score := 85 / 100
        created_at := t }
      -- `if not video.analyses: video.analyses = []` then `.append(analysis)`:
      -- both `None` and `[]` are falsy and are replaced by a fresh empty
      -- list, so the net effect is appending to the existing-or-empty list.
      let video' :=
        { video with analyses := some (video.analyses.getD [] ++ [analysis]) }
      .ok ({ videos_db := dbSet s.videos_db video_id video'
             analyses_db := dbSet s.analyses_db analysis_id analysis }, analysis)

/-- `VideoService.get_video_analyses`: `video.analyses or []`. -/
def get_video_analyses (s : ServiceState) (video_id : String) :
    Except HTTPError (List VideoAnalysis) :=
  match get_video_by_id s video_id with
  | none => .error ⟨404, "영상을 찾을 수 없습니다."⟩
  | some video => .ok (video.analyses.getD [])

/-! ### The recommendation engine -/

/-- Python truthiness of an `Optional[str]`: `None` and `""` are falsy. -/
def pyTruthyStr : Option String → Bool
  | none => false
  | some s => s != ""

/-- Python truthiness of an `Optional[List[str]]`: `None` and `[]` are
falsy. -/
def pyTruthyList : Option (List String) → Bool
  | none => false
  | some l => !l.isEmpty

/-- Python `timedelta.days` of a difference of `d` seconds: `timedelta`
normalises so that `.days` is the floor of the division by 86400. -/
def timedeltaDays (d : ℤ) : ℤ := Int.fdiv d 86400

/-- Guard of `similarity_score += 0.3`:
`current_video.sport_type and video.sport_type == current_video.sport_type`. -/
def sport_bonus (cur v : Video) : Bool :=
  pyTruthyStr cur.sport_type && (v.sport_type == cur.sport_type)

/-- Guard of `similarity_score += 0.4`: `current_video.teams and
video.teams` truthy and `set(current_video.teams) & set(video.teams)`
non-empty (the sets intersect iff some element is shared). -/
def teams_bonus (cur v : Video) : Bool :=
  pyTruthyList cur.teams && pyTruthyList v.teams &&
    (cur.teams.getD []).any (fun t => (v.teams.getD []).contains t)

/-- Guard of `similarity_score += 0.2`: both `match_date`s present
(`datetime` objects are always truthy) and
`abs((current_video.match_date - video.match_date).days) <= 30`. -/
def date_bonus (cur v : Video) : Bool :=
  match cur.match_date, v.match_date with
  | some dc, some dv => decide ((timedeltaDays (dc - dv)).natAbs ≤ 30)
  | _, _ => false

/-- The additive similarity score computed per candidate in
`get_video_recommendations`. -/
def similarity_score (cur v : Video) : ℚ :=
  (if sport_bonus cur v then 3/10 else 0)
    + (if teams_bonus cur v then 4/10 else 0)
    + (if date_bonus cur v then 2/10 else 0)

/-- The `recommendations` list before sorting, in catalog iteration
order: every video other than the target whose score exceeds `0.1`. -/
def rec_candidates (s : ServiceState) (video_id : String) (cur : Video) :
    List VideoRecommendation :=
  (s.videos_db.map (fun p => p.2)).filterMap (fun v =>
    if v.id == video_id then none
    else if similarity_score cur v > 1/10 then
      some ⟨v.id, v.title, similarity_score cur v⟩
    else none)

/-- `VideoService.get_video_recommendations`: 404 on a missing target;
otherwise the candidates, stably sorted by `similarity_score`
descending, truncated by the Python slice `[:limit]`. -/
def get_video_recommendations (s : ServiceState) (video_id : String)
    (limit : ℤ) : Except HTTPError (List VideoRecommendation) :=
  match get_video_by_id s video_id with
  | none => .error ⟨404, "영상을 찾을 수 없습니다."⟩
  | some cur =>
    .ok (pySlice (sortDescBy VideoRecommendation.similarity_score
          (rec_candidates s video_id cur)) 0 limit)

set_option linter.unusedVariables false in
/-- `VideoService.delete_video`. `file_remove_err` is `some msg` when
the `os.path.exists`/`os.remove` block raises; the exception is caught
and only logged (`print`), so it does not influence what follows. -/
def delete_video (s : ServiceState) (video_id : String)
    (file_remove_err : Option String) :
    Except HTTPError (ServiceState × Bool) :=
  match get_video_by_id s video_id with
  | none => .error ⟨404, "영상을 찾을 수 없습니다."⟩
  | some _ =>
    -- try/except around the file removal: `file_remove_err` is swallowed
    .ok ({ s with videos_db := dbDel s.videos_db video_id }, true)

/-! ### `utils/video_utils.py`: the analysis provider stubs -/

/-- `video_utils.detect_goals` placeholder payload. -/
def detect_goals : JValue :=
  .obj [("goals_detected", .num 3),
        ("goal_timestamps", .arr [.num (452/10), .num (678/10), .num (891/10)]),
        ("confidence_scores", .arr [.num (92/100), .num (88/100), .num (95/100)]),
        ("scoring_team", .arr [.str "Team A", .str "Team B", .str "Team A"])]

/-- `video_utils.track_players` placeholder payload. -/
def track_players : JValue :=
  .obj [("players_tracked", .num 22),
        ("tracking_data", .obj [("player_positions", .arr []),
                                ("movement_patterns", .obj []),
                                ("heat_maps", .obj [])]),
        ("team_possession", .obj [("team_a", .num (52/100)),
                                  ("team_b", .num (48/100))])]

/-- `video_utils.analyze_tactics` placeholder payload. -/
def analyze_tactics : JValue :=
  .obj [("formation_detected", .str "4-3-3"),
        ("tactical_events", .arr [
          .obj [("time", .num (153/10)), ("event", .str "counter_attack"),
                ("team", .str "Team A")],
          .obj [("time", .num (327/10)), ("event", .str "pressing"),
                ("team", .str "Team B")],
          .obj [("time", .num (589/10)), ("event", .str "set_piece"),
                ("team", .str "Team A")]]),
        ("possession_stats", .obj [
          ("team_a", .obj [("possession", .num (52/100)), ("passes", .num 423),
                           ("shots", .num 8)]),
          ("team_b", .obj [("possession", .num (48/100)), ("passes", .num 387),
                           ("shots", .num 6)])])]

/-- `video_utils.analyze_video_content`: the dispatch on
`analysis_type`. `openable = false` is the `not cap.isOpened()` early
error return; `timestamp` stands for `datetime.now().isoformat()`. -/
def analyze_video_content (openable : Bool) (analysis_type : String)
    (timestamp : String) : JValue :=
  if ¬ openable then .obj [("error", .str "영상을 열 수 없습니다.")]
  else
    .obj [("analysis_type", .str analysis_type),
          ("timestamp", .str timestamp),
          ("results",
            if analysis_type == "goal_detection" then detect_goals
            else if analysis_type == "player_tracking" then track_players
            else if analysis_type == "tactical_analysis" then analyze_tactics
            else .obj [("error", .str "지원하지 않는 분석 유형입니다.")])]

/-! ### Claim C1 -/

/-- C1 (code bug): a fully valid upload (allowed extension `.mp4`, size
1000 ≤ 100 MiB, file save and processing both succeed) does NOT return
the Video in status `UPLOADING`: `upload_video` `await`s
`_process_video` before returning, so the returned record is already
`COMPLETED`. The claim (and the spec's fire-and-forget design) says the
upload call returns the record in `UPLOADING` status before the
`PROCESSING`/`COMPLETED` transitions happen. -/
theorem c1_upload_returns_completed :
    (upload_video ⟨[], []⟩ "match.mp4" 1000 "Match" none none none none
        "v1" 100 101 none 102 103 true).map (fun r => r.2.status)
      = Except.ok VideoStatus.COMPLETED := by
  rfl

/-! ### Claim C2 -/

/-- The date factor as claim C2 words it: both videos have a
`match_date` and the absolute difference is at most 30 days
(`|Δ| ≤ 30·86400` seconds). -/
def claimed_date_close (cur v : Video) : Bool :=
  match cur.match_date, v.match_date with
  | some dc, some dv => decide ((dc - dv).natAbs ≤ 30 * 86400)
  | _, _ => false

/-- The sport factor as claim C2 words it: both videos share the same
non-empty `sport_type`. -/
def claimed_sport_shared (cur v : Video) : Bool :=
  match cur.sport_type, v.sport_type with
  | some sc, some sv => sc == sv && sc != ""
  | _, _ => false

/-- The team factor as claim C2 words it: the intersection of the two
team-name sets (a missing list is the empty set) is non-empty. -/
def claimed_teams_intersect (cur v : Video) : Bool :=
  (cur.teams.getD []).any (fun t => (v.teams.getD []).contains t)

/-- The similarity score exactly as claim C2 states it, to be compared
with the code's `similarity_score`. -/
def claimed_similarity_score (cur v : Video) : ℚ :=
  (if claimed_sport_shared cur v then 3/10 else 0)
    + (if claimed_teams_intersect cur v then 4/10 else 0)
    + (if claimed_date_close cur v then 2/10 else 0)

/-- Counterexample target for C2: match date 2 635 200 s (30 days and
12 hours) after `c2VideoB`'s; no sport type, no teams. -/
def c2VideoA : Video :=
  { id := "a", title := "A", file_path := "uploads/a.mp4", file_size := 1
    status := .COMPLETED, match_date := some 2635200
    created_at := 0, updated_at := 0 }

/-- Counterexample candidate for C2. -/
def c2VideoB : Video :=
  { id := "b", title := "B", file_path := "uploads/b.mp4", file_size := 1
    status := .COMPLETED, match_date := some 0
    created_at := 0, updated_at := 0 }

/-- C2 (counterexample): for two videos whose match dates are 30 days
and 12 hours apart (absolute difference greater than 30 days) and with
no other commonality, the code still adds the 0.2 date factor —
`timedelta.days` floors 30.5 days to 30 — so the computed score is 0.2
while the claim's sum of contributions is 0. -/
theorem c2_counterexample :
    similarity_score c2VideoA c2VideoB = 2/10
      ∧ claimed_similarity_score c2VideoA c2VideoB = 0
      ∧ similarity_score c2VideoA c2VideoB
          ≠ claimed_similarity_score c2VideoA c2VideoB := by
  have h1 : sport_bonus c2VideoA c2VideoB = false := rfl
  have h2 : teams_bonus c2VideoA c2VideoB = false := rfl
  have h3 : date_bonus c2VideoA c2VideoB = true := rfl
  have h4 : claimed_sport_shared c2VideoA c2VideoB = false := rfl
  have h5 : claimed_teams_intersect c2VideoA c2VideoB = false := rfl
  have h6 : claimed_date_close c2VideoA c2VideoB = false := rfl
  refine ⟨?_, ?_, ?_⟩ <;>
    simp [similarity_score, claimed_similarity_score, h1, h2, h3, h4, h5, h6]

/-- `timedelta.days` of a difference of seconds, rewritten with
Euclidean division (the divisor 86400 is positive). -/
theorem timedeltaDays_eq (d : ℤ) : timedeltaDays d = d / 86400 :=
  Int.fdiv_eq_ediv d (by norm_num)

open Classical in
/-- C2 (amended): for every pair of videos the similarity score equals
the sum of exactly three independent contributions: 0.3 if both share
the same non-empty sport_type, 0.4 if the two team-name sets (order and
duplicates ignored, a missing list counting as empty) intersect, and
0.2 if both have a match_date whose difference `target − candidate`
lies in `[−30 days, +31 days)` — i.e. whose Python `timedelta.days`
(floored whole days) has absolute value at most 30; no other factor
contributes. -/
theorem c2_similarity_decomposition (cur v : Video) :
    similarity_score cur v =
      (if ∃ st, cur.sport_type = some st ∧ st ≠ "" ∧ v.sport_type = some st
        then (3:ℚ)/10 else 0)
      + (if ∃ t, t ∈ cur.teams.getD [] ∧ t ∈ v.teams.getD []
        then (4:ℚ)/10 else 0)
      + (if ∃ dc dv, cur.match_date = some dc ∧ v.match_date = some dv
            ∧ -(30 * 86400) ≤ dc - dv ∧ dc - dv < 31 * 86400
        then (2:ℚ)/10 else 0) := by
  have hs : (sport_bonus cur v = true)
      ↔ (∃ st, cur.sport_type = some st ∧ st ≠ "" ∧ v.sport_type = some st) := by
    unfold sport_bonus pyTruthyStr
    cases hc : cur.sport_type with
    | none => simp
    | some sc =>
      cases hv : v.sport_type with
      | none => simp
      | some sv =>
        simp only [Bool.and_eq_true, bne_iff_ne, ne_eq, beq_iff_eq,
          Option.some.injEq]
        constructor
        · rintro ⟨hne, rfl⟩
          exact ⟨_, rfl, hne, rfl⟩
        · rintro ⟨st, rfl, hne, rfl⟩
          exact ⟨hne, rfl⟩
  have ht : (teams_bonus cur v = true)
      ↔ (∃ t, t ∈ cur.teams.getD [] ∧ t ∈ v.teams.getD []) := by
    unfold teams_bonus pyTruthyList
    cases hc : cur.teams with
    | none => simp
    | some tc =>
      cases hv : v.teams with
      | none => simp
      | some tv =>
        simp only [Bool.and_eq_true, Bool.not_eq_true', List.any_eq_true,
          Option.getD_some]
        constructor
        · rintro ⟨-, t, ht1, ht2⟩
          exact ⟨t, ht1, List.elem_iff.mp ht2⟩
        · rintro ⟨t, ht1, ht2⟩
          exact ⟨⟨List.isEmpty_eq_false_iff_exists_mem.mpr ⟨t, ht1⟩,
            List.isEmpty_eq_false_iff_exists_mem.mpr ⟨t, ht2⟩⟩,
            t, ht1, List.elem_iff.mpr ht2⟩
  have hd : (date_bonus cur v = true)
      ↔ (∃ dc dv, cur.match_date = some dc ∧ v.match_date = some dv
          ∧ -(30 * 86400) ≤ dc - dv ∧ dc - dv < 31 * 86400) := by
    unfold date_bonus
    cases hc : cur.match_date with
    | none => simp
    | some dc =>
      cases hv : v.match_date with
      | none => simp
      | some dv =>
        simp only [timedeltaDays_eq, decide_eq_true_eq, Option.some.injEq]
        constructor
        · intro h
          exact ⟨dc, dv, rfl, rfl, by omega, by omega⟩
        · rintro ⟨dc', dv', rfl, rfl, h1, h2⟩
          omega
  unfold similarity_score
  rw [if_congr hs rfl rfl, if_congr ht rfl rfl, if_congr hd rfl rfl]

/-! ### Claim C5 -/

/-- A Python slice `[0:stop]` with non-negative `stop` is `take`. -/
theorem pySlice_zero_nonneg {α : Type} (xs : List α) (stop : ℤ) (h : 0 ≤ stop) :
    pySlice xs 0 stop = xs.take stop.toNat := by
  have hx := pySlice_nonneg xs 0 stop le_rfl h
  simpa using hx

/-- C5 (amended): `get_video_history` returns the Python slice
`[offset : offset + limit]` of the catalog sorted by `created_at`
descending. For `offset ≥ 0` and `limit ≥ 0` that is exactly positions
`[offset, offset + limit)`; an offset at or beyond the catalog size
yields the empty sequence; and a zero or negative limit yields the
empty sequence provided `offset + limit ≥ 0` (Python slicing wraps a
negative `offset + limit`, see the counterexample). -/
theorem c5_history_spec (s : ServiceState) (limit offset : ℤ) :
    (0 ≤ offset → 0 ≤ limit →
      get_video_history s limit offset
        = ((sortDescBy Video.created_at (s.videos_db.map (fun p => p.2))).drop
            offset.toNat).take limit.toNat)
    ∧ ((s.videos_db.length : ℤ) ≤ offset → get_video_history s limit offset = [])
    ∧ (limit ≤ 0 → 0 ≤ offset + limit → get_video_history s limit offset = []) := by
  refine ⟨?_, ?_, ?_⟩
  · intro ho hl
    unfold get_video_history
    exact pySlice_nonneg _ offset limit ho hl
  · intro h
    unfold get_video_history
    apply pySlice_empty_of_start_ge
    have hp := (sortDescBy_perm Video.created_at
      (s.videos_db.map (fun p => p.2))).length_eq
    rw [hp, List.length_map]
    exact h
  · intro hl hol
    unfold get_video_history
    exact pySlice_empty_of_stop_le _ _ _ hol (by omega)

/-- Counterexample video for C5, created at time 100. -/
def c5VideoA : Video :=
  { id := "a", title := "A", file_path := "uploads/a.mp4", file_size := 1
    status := .COMPLETED, created_at := 100, updated_at := 100 }

/-- Counterexample video for C5, created at time 200 (the newest). -/
def c5VideoB : Video :=
  { id := "b", title := "B", file_path := "uploads/b.mp4", file_size := 1
    status := .COMPLETED, created_at := 200, updated_at := 200 }

/-- Counterexample catalog for C5: two videos. -/
def c5State : ServiceState := ⟨[("a", c5VideoA), ("b", c5VideoB)], []⟩

/-- C5 (counterexample): with two videos in the catalog and
`limit = -1`, `offset = 0`, the code evaluates the Python slice
`videos[0:-1]`, which is the single newest video — not the empty
sequence the claim requires for every zero-or-negative limit. -/
theorem c5_counterexample :
    get_video_history c5State (-1) 0 = [c5VideoB]
      ∧ get_video_history c5State (-1) 0 ≠ [] := by
  have he : get_video_history c5State (-1) 0 = [c5VideoB] := rfl
  refine ⟨he, ?_⟩
  rw [he]
  exact List.cons_ne_nil _ _

/-- Witness for C5: the three parts of `c5_history_spec` discharged on
the concrete two-video catalog. -/
theorem c5_history_spec_witness :
    get_video_history c5State 2 0
        = ((sortDescBy Video.created_at
            (c5State.videos_db.map (fun p => p.2))).drop
              (0:ℤ).toNat).take (2:ℤ).toNat
      ∧ get_video_history c5State 20 5 = []
      ∧ get_video_history c5State 0 0 = [] :=
  ⟨(c5_history_spec c5State 2 0).1 (by decide) (by decide),
   (c5_history_spec c5State 20 5).2.1 (by decide),
   (c5_history_spec c5State 0 0).2.2 (by decide) (by decide)⟩

/-! ### Claim C3 -/

/-- Every candidate produced by `rec_candidates` keeps the target out
and scores strictly above 0.1. -/
theorem rec_candidates_sound (s : ServiceState) (video_id : String)
    (cur : Video) (r : VideoRecommendation)
    (h : r ∈ rec_candidates s video_id cur) :
    r.video_id ≠ video_id ∧ (1:ℚ)/10 < r.similarity_score := by
  unfold rec_candidates at h
  rcases List.mem_filterMap.mp h with ⟨v, -, hr⟩
  by_cases h1 : v.id == video_id
  · rw [if_pos h1] at hr
    exact absurd hr (by simp)
  · rw [if_neg h1] at hr
    by_cases h2 : similarity_score cur v > 1/10
    · rw [if_pos h2] at hr
      injection hr with hr
      subst hr
      exact ⟨by simpa using h1, h2⟩
    · rw [if_neg h2] at hr
      exact absurd hr (by simp)

/-- C3: for an existing target and a non-negative limit,
`get_video_recommendations` succeeds and returns exactly the
score-filtered candidates (taken in catalog iteration order), stably
sorted by score descending and truncated to `limit`: the target itself
never appears, at most `limit` entries are returned, every returned
score is strictly above 0.1, scores are non-increasing, and elements of
equal score stay in catalog iteration order (the filter over any score
value is unchanged by the sort). -/
theorem c3_recommendations_spec (s : ServiceState) (video_id : String)
    (limit : ℤ) (cur : Video)
    (hex : get_video_by_id s video_id = some cur) (hlim : 0 ≤ limit) :
    ∃ recs, get_video_recommendations s video_id limit = .ok recs
      ∧ recs = (sortDescBy VideoRecommendation.similarity_score
          (rec_candidates s video_id cur)).take limit.toNat
      ∧ (∀ r ∈ recs, r.video_id ≠ video_id)
      ∧ (recs.length : ℤ) ≤ limit
      ∧ (∀ r ∈ recs, (1:ℚ)/10 < r.similarity_score)
      ∧ recs.Pairwise (fun a b => b.similarity_score ≤ a.similarity_score)
      ∧ (∀ q : ℚ, (sortDescBy VideoRecommendation.similarity_score
            (rec_candidates s video_id cur)).filter
              (fun r => r.similarity_score == q)
          = (rec_candidates s video_id cur).filter
              (fun r => r.similarity_score == q)) := by
  have hres : get_video_recommendations s video_id limit
      = .ok ((sortDescBy VideoRecommendation.similarity_score
          (rec_candidates s video_id cur)).take limit.toNat) := by
    unfold get_video_recommendations
    rw [hex]
    exact congrArg Except.ok (pySlice_zero_nonneg _ _ hlim)
  refine ⟨_, hres, rfl, ?_, ?_, ?_, ?_, ?_⟩
  · intro r hr
    have hsorted : r ∈ sortDescBy VideoRecommendation.similarity_score
        (rec_candidates s video_id cur) := List.mem_of_mem_take hr
    have hcand : r ∈ rec_candidates s video_id cur :=
      (sortDescBy_perm _ _).mem_iff.mp hsorted
    exact (rec_candidates_sound s video_id cur r hcand).1
  · rw [List.length_take]
    omega
  · intro r hr
    have hsorted : r ∈ sortDescBy VideoRecommendation.similarity_score
        (rec_candidates s video_id cur) := List.mem_of_mem_take hr
    have hcand : r ∈ rec_candidates s video_id cur :=
      (sortDescBy_perm _ _).mem_iff.mp hsorted
    exact (rec_candidates_sound s video_id cur r hcand).2
  · exact (sortDescBy_sorted _ _).sublist (List.take_sublist _ _)
  · intro q
    exact sortDescBy_filter _ _ q

/-- Witness target for C3: COMPLETED soccer video. -/
def c3Target : Video :=
  { id := "t", title := "T", file_path := "uploads/t.mp4", file_size := 1
    status := .COMPLETED, sport_type := some "soccer"
    created_at := 0, updated_at := 0 }

/-- Witness candidate for C3: same sport, so it scores 0.3. -/
def c3Cand : Video :=
  { id := "c", title := "C", file_path := "uploads/c.mp4", file_size := 1
    status := .COMPLETED, sport_type := some "soccer"
    created_at := 1, updated_at := 1 }

/-- Witness catalog for C3. -/
def c3State : ServiceState := ⟨[("t", c3Target), ("c", c3Cand)], []⟩

/-- Witness for C3: `c3_recommendations_spec` discharged on the
concrete two-video catalog with limit 5. -/
theorem c3_recommendations_spec_witness :
    get_video_by_id c3State "t" = some c3Target
      ∧ (0:ℤ) ≤ 5
      ∧ (∃ recs, get_video_recommendations c3State "t" 5 = .ok recs
          ∧ recs = (sortDescBy VideoRecommendation.similarity_score
              (rec_candidates c3State "t" c3Target)).take (5:ℤ).toNat
          ∧ (∀ r ∈ recs, r.video_id ≠ "t")
          ∧ (recs.length : ℤ) ≤ 5
          ∧ (∀ r ∈ recs, (1:ℚ)/10 < r.similarity_score)
          ∧ recs.Pairwise (fun a b => b.similarity_score ≤ a.similarity_score)
          ∧ (∀ q : ℚ, (sortDescBy VideoRecommendation.similarity_score
                (rec_candidates c3State "t" c3Target)).filter
                  (fun r => r.similarity_score == q)
              = (rec_candidates c3State "t" c3Target).filter
                  (fun r => r.similarity_score == q))) :=
  ⟨rfl, by decide, c3_recommendations_spec c3State "t" 5 c3Target rfl (by decide)⟩

/-! ### Claim C4 -/

/-- Assigning a fresh key to a Python dict appends. -/
theorem dbSet_eq_append {α : Type} (db : List (String × α)) (k : String) (v : α)
    (h : dbGet db k = none) : dbSet db k v = db ++ [(k, v)] := by
  induction db with
  | nil => simp [dbSet]
  | cons p ps ih =>
    by_cases hk : p.1 == k
    · rw [dbGet, if_pos hk] at h
      exact absurd h (by simp)
    · rw [dbGet, if_neg hk] at h
      simp [dbSet, hk, ih h]

/-- C4: `analyze_video` fails with 404 (NotFound) when the id is
unknown, with 400 (InvalidState) when the video's status is not
COMPLETED, and on a COMPLETED video succeeds: it returns the Analysis
built from the request, appends exactly that one record to the video's
analyses list, and appends exactly one entry to the analyses catalog
(the analysis id being fresh). -/
theorem c4_analyze_spec (s : ServiceState) (video_id : String)
    (req : VideoAnalysisRequest) (analysis_id : String) (t : ℤ) :
    (get_video_by_id s video_id = none →
      analyze_video s video_id req analysis_id t
        = .error ⟨404, "영상을 찾을 수 없습니다."⟩)
    ∧ (∀ v, get_video_by_id s video_id = some v →
        v.status ≠ VideoStatus.COMPLETED →
      analyze_video s video_id req analysis_id t
        = .error ⟨400, "영상 처리가 완료되지 않았습니다."⟩)
    ∧ (∀ v, get_video_by_id s video_id = some v →
        v.status = VideoStatus.COMPLETED →
        dbGet s.analyses_db analysis_id = none →
      ∃ s' a, analyze_video s video_id req analysis_id t = .ok (s', a)
        ∧ a = { id := analysis_id, video_id := video_id
                analysis_type := req.analysis_type
                result_data := analyze_result_data req.analysis_type req.parameters
                confidence_score := 85/100, created_at := t }
        ∧ get_video_by_id s' video_id
            = some { v with analyses := some (v.analyses.getD [] ++ [a]) }
        ∧ s'.analyses_db = s.analyses_db ++ [(analysis_id, a)]) := by
  refine ⟨?_, ?_, ?_⟩
  · intro h
    unfold analyze_video
    rw [h]
  · intro v hv hst
    unfold analyze_video
    rw [hv]
    exact if_pos hst
  · intro v hv hst hfresh
    have hrun : analyze_video s video_id req analysis_id t
        = .ok ({ videos_db := dbSet s.videos_db video_id
                   { v with analyses := some (v.analyses.getD []
                       ++ [⟨analysis_id, video_id, req.analysis_type,
                            analyze_result_data req.analysis_type req.parameters,
                            85/100, t⟩]) }
                 analyses_db := dbSet s.analyses_db analysis_id
                   ⟨analysis_id, video_id, req.analysis_type,
                    analyze_result_data req.analysis_type req.parameters,
                    85/100, t⟩ },
               ⟨analysis_id, video_id, req.analysis_type,
                analyze_result_data req.analysis_type req.parameters,
                85/100, t⟩) := by
      unfold analyze_video
      rw [hv]
      exact if_neg (fun hne => hne hst)
    exact ⟨_, _, hrun, rfl, dbGet_dbSet_self _ _ _,
      dbSet_eq_append _ _ _ hfresh⟩

/-- Witness fixture for C4: a COMPLETED video. -/
def c4Done : Video :=
  { id := "t", title := "T", file_path := "uploads/t.mp4", file_size := 1
    status := .COMPLETED, created_at := 0, updated_at := 0 }

/-- Witness fixture for C4: a video still PROCESSING. -/
def c4Processing : Video :=
  { id := "p", title := "P", file_path := "uploads/p.mp4", file_size := 1
    status := .PROCESSING, created_at := 0, updated_at := 0 }

/-- Witness catalog for C4. -/
def c4State : ServiceState := ⟨[("t", c4Done), ("p", c4Processing)], []⟩

/-- Witness for C4: the three parts of `c4_analyze_spec` discharged on
a concrete catalog — a missing id, a PROCESSING video, and a COMPLETED
video. -/
theorem c4_analyze_spec_witness :
    (analyze_video c4State "zzz" ⟨"goal_detection", none⟩ "a1" 7
        = .error ⟨404, "영상을 찾을 수 없습니다."⟩)
    ∧ (analyze_video c4State "p" ⟨"goal_detection", none⟩ "a1" 7
        = .error ⟨400, "영상 처리가 완료되지 않았습니다."⟩)
    ∧ (∃ s' a, analyze_video c4State "t" ⟨"goal_detection", none⟩ "a1" 7
          = .ok (s', a)
        ∧ a = { id := "a1", video_id := "t", analysis_type := "goal_detection"
                result_data := analyze_result_data "goal_detection" none
                confidence_score := 85/100, created_at := 7 }
        ∧ get_video_by_id s' "t"
            = some { c4Done with
                analyses := some (c4Done.analyses.getD [] ++ [a]) }
        ∧ s'.analyses_db = c4State.analyses_db ++ [("a1", a)]) :=
  ⟨(c4_analyze_spec c4State "zzz" ⟨"goal_detection", none⟩ "a1" 7).1 rfl,
   (c4_analyze_spec c4State "p" ⟨"goal_detection", none⟩ "a1" 7).2.1
     c4Processing rfl (by decide),
   (c4_analyze_spec c4State "t" ⟨"goal_detection", none⟩ "a1" 7).2.2
     c4Done rfl rfl rfl⟩

/-! ### Claim C6 -/

/-- Counterexample fixture for C6: a COMPLETED video. -/
def c6Video : Video :=
  { id := "v", title := "V", file_path := "uploads/v.mp4", file_size := 1
    status := .COMPLETED, created_at := 0, updated_at := 0 }

/-- Counterexample catalog for C6. -/
def c6State : ServiceState := ⟨[("v", c6Video)], []⟩

/-- C6 (counterexample): on a COMPLETED video `analyze` succeeds for a
recognized type ("goal_detection") and for a clearly unrecognized type
("zzz_unknown") with the *same* `results` payload — the fixed empty
shape `detected_events`/`statistics`/`highlights` with no `error` key.
So the payload structure is not distinct per type, the provider is not
consulted, and an unrecognized type does not produce an error payload,
contradicting the claim. -/
theorem c6_counterexample :
    (analyze_video c6State "v" ⟨"goal_detection", none⟩ "a1" 5).map
        (fun r => r.2.result_data.objLookup "results")
      = (analyze_video c6State "v" ⟨"zzz_unknown", none⟩ "a2" 5).map
        (fun r => r.2.result_data.objLookup "results")
    ∧ (analyze_video c6State "v" ⟨"zzz_unknown", none⟩ "a2" 5).map
        (fun r => (r.2.result_data.objLookup "results").map JValue.objKeys)
      = .ok (some ["detected_events", "statistics", "highlights"])
    ∧ "error" ∉ ["detected_events", "statistics", "highlights"] :=
  ⟨rfl, rfl, by decide⟩

/-- C6 (amended): `analyze_video` never consults the analysis provider:
for every COMPLETED video and every `analysis_type` — recognized or
not — it succeeds (no exception) and stores the same fixed payload
shape `analysis_type`/`parameters`/`results` with empty
`detected_events`/`statistics`/`highlights` and no error payload. The
per-type distinct payloads and the error payload for unrecognized
types live only in the unused provider stub
`analyze_video_content` of `video_utils.py`. -/
theorem c6_analyze_payload (s : ServiceState) (video_id : String)
    (req : VideoAnalysisRequest) (analysis_id : String) (t : ℤ) (v : Video)
    (hex : get_video_by_id s video_id = some v)
    (hst : v.status = VideoStatus.COMPLETED) :
    (∃ s' a, analyze_video s video_id req analysis_id t = .ok (s', a)
      ∧ a.result_data = analyze_result_data req.analysis_type req.parameters
      ∧ a.result_data.objKeys = ["analysis_type", "parameters", "results"]
      ∧ a.result_data.objLookup "results"
          = some (.obj [("detected_events", .arr []), ("statistics", .obj []),
                        ("highlights", .arr [])]))
    ∧ (∀ ts, (analyze_video_content true "goal_detection" ts).objLookup "results"
          = some detect_goals
        ∧ (analyze_video_content true "player_tracking" ts).objLookup "results"
          = some track_players
        ∧ (analyze_video_content true "tactical_analysis" ts).objLookup "results"
          = some analyze_tactics
        ∧ (∀ ty, ty ≠ "goal_detection" → ty ≠ "player_tracking" →
            ty ≠ "tactical_analysis" →
            (analyze_video_content true ty ts).objLookup "results"
              = some (.obj [("error", .str "지원하지 않는 분석 유형입니다.")])))
    ∧ detect_goals.objKeys ≠ track_players.objKeys
    ∧ detect_goals.objKeys ≠ analyze_tactics.objKeys
    ∧ track_players.objKeys ≠ analyze_tactics.objKeys := by
  refine ⟨?_, ?_, by decide, by decide, by decide⟩
  · have hrun : analyze_video s video_id req analysis_id t
        = .ok ({ videos_db := dbSet s.videos_db video_id
                   { v with analyses := some (v.analyses.getD []
                       ++ [⟨analysis_id, video_id, req.analysis_type,
                            analyze_result_data req.analysis_type req.parameters,
                            85/100, t⟩]) }
                 analyses_db := dbSet s.analyses_db analysis_id
                   ⟨analysis_id, video_id, req.analysis_type,
                    analyze_result_data req.analysis_type req.parameters,
                    85/100, t⟩ },
               ⟨analysis_id, video_id, req.analysis_type,
                analyze_result_data req.analysis_type req.parameters,
                85/100, t⟩) := by
      unfold analyze_video
      rw [hex]
      exact if_neg (fun hne => hne hst)
    exact ⟨_, _, hrun, rfl, rfl, rfl⟩
  · intro ts
    refine ⟨rfl, rfl, rfl, ?_⟩
    intro ty h1 h2 h3
    unfold analyze_video_content
    have b1 : (ty == "goal_detection") = false := by simpa using h1
    have b2 : (ty == "player_tracking") = false := by simpa using h2
    have b3 : (ty == "tactical_analysis") = false := by simpa using h3
    simp only [b1, b2, b3, Bool.false_eq_true, if_false, not_true,
      Bool.true_eq_false, not_false_iff, if_true]
    rfl

/-- Witness for C6: `c6_analyze_payload` discharged on the concrete
one-video catalog with analysis type "player_tracking". -/
theorem c6_analyze_payload_witness :
    get_video_by_id c6State "v" = some c6Video
      ∧ c6Video.status = VideoStatus.COMPLETED
      ∧ ((∃ s' a, analyze_video c6State "v" ⟨"player_tracking", none⟩ "a3" 9
            = .ok (s', a)
          ∧ a.result_data = analyze_result_data "player_tracking" none
          ∧ a.result_data.objKeys = ["analysis_type", "parameters", "results"]
          ∧ a.result_data.objLookup "results"
              = some (.obj [("detected_events", .arr []),
                            ("statistics", .obj []), ("highlights", .arr [])]))
        ∧ (∀ ts, (analyze_video_content true "goal_detection" ts).objLookup
              "results" = some detect_goals
            ∧ (analyze_video_content true "player_tracking" ts).objLookup
              "results" = some track_players
            ∧ (analyze_video_content true "tactical_analysis" ts).objLookup
              "results" = some analyze_tactics
            ∧ (∀ ty, ty ≠ "goal_detection" → ty ≠ "player_tracking" →
                ty ≠ "tactical_analysis" →
                (analyze_video_content true ty ts).objLookup "results"
                  = some (.obj [("error",
                      .str "지원하지 않는 분석 유형입니다.")])))
        ∧ detect_goals.objKeys ≠ track_players.objKeys
        ∧ detect_goals.objKeys ≠ analyze_tactics.objKeys
        ∧ track_players.objKeys ≠ analyze_tactics.objKeys) :=
  ⟨rfl, rfl, c6_analyze_payload c6State "v" ⟨"player_tracking", none⟩ "a3" 9
    c6Video rfl rfl⟩

/-! ### Claim C7 -/

/-- After a Python `del`, the key is gone. -/
theorem dbGet_dbDel_self {α : Type} (db : List (String × α)) (k : String) :
    dbGet (dbDel db k) k = none := by
  induction db with
  | nil => rfl
  | cons p ps ih =>
    by_cases h : p.1 == k
    · have hb : (p.1 != k) = false := by simp [bne, h]
      simpa [dbDel, List.filter_cons, hb] using ih
    · have hb : (p.1 != k) = true := by simp [bne, h]
      simpa [dbDel, List.filter_cons, hb, dbGet, h] using ih

/-- Membership in a Python slice implies membership in the list. -/
theorem mem_of_mem_pySlice {α : Type} (xs : List α) (start stop : ℤ) (a : α)
    (h : a ∈ pySlice xs start stop) : a ∈ xs :=
  List.mem_of_mem_take (List.mem_of_mem_drop h)

/-- C7: deleting an existing video succeeds with `True` even when the
backing-file removal raised (the error is caught and logged), and the
record is gone: a subsequent `get` returns nothing and no `list()`
result — any limit and offset — contains a video with the deleted id
(under the invariant that records are keyed by their own id). -/
theorem c7_delete_removes (s : ServiceState) (video_id : String)
    (ferr : Option String) (v : Video)
    (hex : get_video_by_id s video_id = some v)
    (hwf : ∀ p ∈ s.videos_db, p.2.id = p.1) :
    ∃ s', delete_video s video_id ferr = .ok (s', true)
      ∧ get_video_by_id s' video_id = none
      ∧ (∀ limit offset, ∀ w ∈ get_video_history s' limit offset,
          w.id ≠ video_id) := by
  refine ⟨{ s with videos_db := dbDel s.videos_db video_id }, ?_, ?_, ?_⟩
  · unfold delete_video
    rw [hex]
  · exact dbGet_dbDel_self _ _
  · intro limit offset w hw
    have hmem : w ∈ sortDescBy Video.created_at
        ((dbDel s.videos_db video_id).map (fun p => p.2)) :=
      mem_of_mem_pySlice _ _ _ _ hw
    have hmem2 : w ∈ (dbDel s.videos_db video_id).map (fun p => p.2) :=
      (sortDescBy_perm _ _).mem_iff.mp hmem
    rcases List.mem_map.mp hmem2 with ⟨p, hp, rfl⟩
    rcases List.mem_filter.mp hp with ⟨hpdb, hpk⟩
    rw [hwf p hpdb]
    simpa using hpk

/-- Witness fixture for C7. -/
def c7Video : Video :=
  { id := "d", title := "D", file_path := "uploads/d.mp4", file_size := 1
    status := .COMPLETED, created_at := 0, updated_at := 0 }

/-- Witness catalog for C7. -/
def c7State : ServiceState := ⟨[("d", c7Video)], []⟩

/-- Witness for C7: `c7_delete_removes` discharged on a concrete
one-video catalog, with the file removal failing (`some "oserror"`). -/
theorem c7_delete_removes_witness :
    get_video_by_id c7State "d" = some c7Video
      ∧ (∀ p ∈ c7State.videos_db, p.2.id = p.1)
      ∧ (∃ s', delete_video c7State "d" (some "oserror") = .ok (s', true)
          ∧ get_video_by_id s' "d" = none
          ∧ (∀ limit offset, ∀ w ∈ get_video_history s' limit offset,
              w.id ≠ "d")) :=
  ⟨rfl, by decide,
   c7_delete_removes c7State "d" (some "oserror") c7Video rfl (by decide)⟩

/-! ### Claim C10 -/

/-- C10: `delete_video` on an unknown id raises 404 (it does not return
False); on an existing id it returns True; and no invocation ever
returns the boolean False. -/
theorem c10_delete_contract (s : ServiceState) (video_id : String)
    (ferr : Option String) :
    (get_video_by_id s video_id = none →
      delete_video s video_id ferr = .error ⟨404, "영상을 찾을 수 없습니다."⟩)
    ∧ ((get_video_by_id s video_id).isSome →
      ∃ s', delete_video s video_id ferr = .ok (s', true))
    ∧ (∀ s' b, delete_video s video_id ferr = .ok (s', b) → b = true) := by
  refine ⟨?_, ?_, ?_⟩
  · intro h
    unfold delete_video
    rw [h]
  · intro h
    rcases Option.isSome_iff_exists.mp h with ⟨v, hv⟩
    refine ⟨{ s with videos_db := dbDel s.videos_db video_id }, ?_⟩
    unfold delete_video
    rw [hv]
  · intro s' b h
    unfold delete_video at h
    cases hv : get_video_by_id s video_id with
    | none =>
      rw [hv] at h
      exact absurd h (by simp)
    | some v =>
      rw [hv] at h
      simp only [Except.ok.injEq, Prod.mk.injEq] at h
      exact h.2.symm

/-- Witness fixture for C10. -/
def c10Video : Video :=
  { id := "x", title := "X", file_path := "uploads/x.mp4", file_size := 1
    status := .COMPLETED, created_at := 0, updated_at := 0 }

/-- Witness catalog for C10. -/
def c10State : ServiceState := ⟨[("x", c10Video)], []⟩

/-- Witness for C10: `c10_delete_contract` discharged on a concrete
catalog, for a missing id and for an existing id. -/
theorem c10_delete_contract_witness :
    delete_video c10State "nope" none
        = .error ⟨404, "영상을 찾을 수 없습니다."⟩
      ∧ (∃ s', delete_video c10State "x" none = .ok (s', true))
      ∧ (∀ s' b, delete_video c10State "x" none = .ok (s', b) → b = true) :=
  ⟨(c10_delete_contract c10State "nope" none).1 rfl,
   (c10_delete_contract c10State "x" none).2.1 (by rfl),
   (c10_delete_contract c10State "x" none).2.2⟩

/-! ### Claim C8 -/

/-- C8: a successful `analyze_video` mutates nothing except the target
video's `analyses` list and the analyses catalog: every other catalog
entry is returned unchanged by `get`, and on the target every field
other than `analyses` — in particular `updated_at`, `status` and all
metadata — keeps its exact previous value; the analyses catalog gains
exactly the returned record. -/
theorem c8_analyze_frame (s : ServiceState) (video_id : String)
    (req : VideoAnalysisRequest) (analysis_id : String) (t : ℤ)
    (s' : ServiceState) (a : VideoAnalysis)
    (h : analyze_video s video_id req analysis_id t = .ok (s', a)) :
    (∀ other, other ≠ video_id →
      get_video_by_id s' other = get_video_by_id s other)
    ∧ (∀ v, get_video_by_id s video_id = some v →
        ∃ v', get_video_by_id s' video_id = some v'
          ∧ v'.analyses = some (v.analyses.getD [] ++ [a])
          ∧ v'.id = v.id ∧ v'.title = v.title
          ∧ v'.description = v.description ∧ v'.file_path = v.file_path
          ∧ v'.file_size = v.file_size ∧ v'.duration = v.duration
          ∧ v'.status = v.status ∧ v'.sport_type = v.sport_type
          ∧ v'.match_date = v.match_date ∧ v'.teams = v.teams
          ∧ v'.created_at = v.created_at ∧ v'.updated_at = v.updated_at)
    ∧ s'.analyses_db = dbSet s.analyses_db analysis_id a := by
  cases hv : get_video_by_id s video_id with
  | none =>
    have hrun : analyze_video s video_id req analysis_id t
        = .error ⟨404, "영상을 찾을 수 없습니다."⟩ := by
      unfold analyze_video
      rw [hv]
    rw [hrun] at h
    exact absurd h (by simp)
  | some v =>
    by_cases hst : v.status = VideoStatus.COMPLETED
    · have hrun : analyze_video s video_id req analysis_id t
          = .ok ({ videos_db := dbSet s.videos_db video_id
                     { v with analyses := some (v.analyses.getD []
                         ++ [⟨analysis_id, video_id, req.analysis_type,
                              analyze_result_data req.analysis_type req.parameters,
                              85/100, t⟩]) }
                   analyses_db := dbSet s.analyses_db analysis_id
                     ⟨analysis_id, video_id, req.analysis_type,
                      analyze_result_data req.analysis_type req.parameters,
                      85/100, t⟩ },
                 ⟨analysis_id, video_id, req.analysis_type,
                  analyze_result_data req.analysis_type req.parameters,
                  85/100, t⟩) := by
        unfold analyze_video
        rw [hv]
        exact if_neg (fun hne => hne hst)
      rw [hrun] at h
      simp only [Except.ok.injEq, Prod.mk.injEq] at h
      obtain ⟨hpair, ha⟩ := h
      subst hpair
      subst ha
      refine ⟨?_, ?_, rfl⟩
      · intro other hother
        exact dbGet_dbSet_ne _ _ _ _ hother
      · intro w hw
        have hvw : v = w := by injection hw
        subst hvw
        exact ⟨_, dbGet_dbSet_self _ _ _, rfl, rfl, rfl, rfl, rfl, rfl,
          rfl, rfl, rfl, rfl, rfl, rfl, rfl⟩
    · have hrun : analyze_video s video_id req analysis_id t
          = .error ⟨400, "영상 처리가 완료되지 않았습니다."⟩ := by
        unfold analyze_video
        rw [hv]
        exact if_pos hst
      rw [hrun] at h
      exact absurd h (by simp)

/-- Witness fixture for C8: a COMPLETED video with metadata. -/
def c8Video : Video :=
  { id := "w", title := "W", file_path := "uploads/w.mp4", file_size := 9
    status := .COMPLETED, sport_type := some "soccer"
    created_at := 3, updated_at := 4 }

/-- Second witness fixture for C8: an unrelated catalog entry. -/
def c8Other : Video :=
  { id := "o", title := "O", file_path := "uploads/o.mp4", file_size := 2
    status := .PROCESSING, created_at := 1, updated_at := 2 }

/-- Witness catalog for C8. -/
def c8State : ServiceState := ⟨[("w", c8Video), ("o", c8Other)], []⟩

/-- Witness for C8: `c8_analyze_frame` discharged on a concrete run of
`analyze_video` on a two-video catalog. -/
theorem c8_analyze_frame_witness :
    (∀ other, other ≠ "w" →
      get_video_by_id
        { videos_db := dbSet c8State.videos_db "w"
            { c8Video with analyses := some (c8Video.analyses.getD []
                ++ [⟨"a9", "w", "goal_detection",
                     analyze_result_data "goal_detection" none, 85/100, 11⟩]) }
          analyses_db := dbSet c8State.analyses_db "a9"
            ⟨"a9", "w", "goal_detection",
             analyze_result_data "goal_detection" none, 85/100, 11⟩ } other
        = get_video_by_id c8State other)
    ∧ (∀ v, get_video_by_id c8State "w" = some v →
        ∃ v', get_video_by_id
            { videos_db := dbSet c8State.videos_db "w"
                { c8Video with analyses := some (c8Video.analyses.getD []
                    ++ [⟨"a9", "w", "goal_detection",
                         analyze_result_data "goal_detection" none, 85/100, 11⟩]) }
              analyses_db := dbSet c8State.analyses_db "a9"
                ⟨"a9", "w", "goal_detection",
                 analyze_result_data "goal_detection" none, 85/100, 11⟩ } "w"
            = some v'
          ∧ v'.analyses = some (v.analyses.getD []
              ++ [⟨"a9", "w", "goal_detection",
                   analyze_result_data "goal_detection" none, 85/100, 11⟩])
          ∧ v'.id = v.id ∧ v'.title = v.title
          ∧ v'.description = v.description ∧ v'.file_path = v.file_path
          ∧ v'.file_size = v.file_size ∧ v'.duration = v.duration
          ∧ v'.status = v.status ∧ v'.sport_type = v.sport_type
          ∧ v'.match_date = v.match_date ∧ v'.teams = v.teams
          ∧ v'.created_at = v.created_at ∧ v'.updated_at = v.updated_at)
    ∧ ({ videos_db := dbSet c8State.videos_db "w"
           { c8Video with analyses := some (c8Video.analyses.getD []
               ++ [⟨"a9", "w", "goal_detection",
                    analyze_result_data "goal_detection" none, 85/100, 11⟩]) }
         analyses_db := dbSet c8State.analyses_db "a9"
           ⟨"a9", "w", "goal_detection",
            analyze_result_data "goal_detection" none, 85/100, 11⟩ }
         : ServiceState).analyses_db
        = dbSet c8State.analyses_db "a9"
            ⟨"a9", "w", "goal_detection",
             analyze_result_data "goal_detection" none, 85/100, 11⟩ :=
  c8_analyze_frame c8State "w" ⟨"goal_detection", none⟩ "a9" 11 _ _ rfl

/-! ### Claim C9 -/

/-- The two pipeline transitions of `_process_video`, evaluated on any
state holding the video: PROCESSING at `t3`, then COMPLETED (or FAILED)
at `t4`, each transition overwriting `updated_at` and nothing else. -/
theorem process_steps_spec (s : ServiceState) (video_id : String)
    (w : Video) (t3 t4 : ℤ) (ok : Bool)
    (hg : dbGet s.videos_db video_id = some w) :
    dbGet (process_step1 s video_id t3).videos_db video_id
      = some { w with status := VideoStatus.PROCESSING, updated_at := t3 }
    ∧ dbGet (process_step2 (process_step1 s video_id t3) video_id t4 ok).videos_db
        video_id
      = some { w with
          status := if ok then VideoStatus.COMPLETED else VideoStatus.FAILED
          updated_at := t4 } := by
  have e1 : (process_step1 s video_id t3).videos_db
      = dbSet s.videos_db video_id
          { w with status := VideoStatus.PROCESSING, updated_at := t3 } := by
    unfold process_step1
    rw [hg]
  have h1 : dbGet (process_step1 s video_id t3).videos_db video_id
      = some { w with status := VideoStatus.PROCESSING, updated_at := t3 } := by
    rw [e1]
    exact dbGet_dbSet_self _ _ _
  refine ⟨h1, ?_⟩
  have e2 : (process_step2 (process_step1 s video_id t3) video_id t4 ok).videos_db
      = dbSet (process_step1 s video_id t3).videos_db video_id
          { w with
            status := if ok then VideoStatus.COMPLETED else VideoStatus.FAILED
            updated_at := t4 } := by
    unfold process_step2
    rw [h1]
  rw [e2]
  exact dbGet_dbSet_self _ _ _

/-- C9: across the lifecycle driven inside `upload_video` — record
creation at `(t1, t2)`, then PROCESSING at `t3`, then COMPLETED or
FAILED at `t4` — `updated_at` never decreases and always stays at or
above `created_at`, assuming the clock reads are monotone
(`t1 ≤ t2 ≤ t3 ≤ t4`); `created_at` itself never changes. -/
theorem c9_updated_at_monotone (s : ServiceState) (filename : String)
    (file_size : ℤ) (title : String) (description sport_type : Option String)
    (match_date : Option ℤ) (teams : Option (List String)) (video_id : String)
    (t1 t2 t3 t4 : ℤ) (ok : Bool) (s1 : ServiceState) (v : Video)
    (h12 : t1 ≤ t2) (h23 : t2 ≤ t3) (h34 : t3 ≤ t4)
    (h : upload_create s filename file_size title description sport_type
        match_date teams video_id t1 t2 none = .ok (s1, v)) :
    v.created_at = t1 ∧ v.updated_at = t2 ∧ v.created_at ≤ v.updated_at
    ∧ v.status = VideoStatus.UPLOADING
    ∧ ∀ v1 v2,
        dbGet (process_step1 s1 video_id t3).videos_db video_id = some v1 →
        dbGet (process_step2 (process_step1 s1 video_id t3) video_id t4
            ok).videos_db video_id = some v2 →
        v1.status = VideoStatus.PROCESSING
        ∧ v2.status = (if ok then VideoStatus.COMPLETED else VideoStatus.FAILED)
        ∧ v1.created_at = t1 ∧ v1.updated_at = t3
        ∧ v2.created_at = t1 ∧ v2.updated_at = t4
        ∧ v.updated_at ≤ v1.updated_at ∧ v1.updated_at ≤ v2.updated_at
        ∧ v1.created_at ≤ v1.updated_at ∧ v2.created_at ≤ v2.updated_at := by
  simp only [upload_create] at h
  split at h
  · exact absurd h (by simp)
  · split at h
    · exact absurd h (by simp)
    · simp only [Except.ok.injEq, Prod.mk.injEq] at h
      obtain ⟨hs1, hv⟩ := h
      subst hs1
      subst hv
      refine ⟨rfl, rfl, h12, rfl, ?_⟩
      intro v1 v2 hv1 hv2
      obtain ⟨hp1, hp2⟩ :=
        process_steps_spec
          ⟨dbSet s.videos_db video_id
            ⟨video_id, title, description,
             "uploads/" ++ video_id ++ pyLower (splitextExt filename),
             file_size, none, .UPLOADING, sport_type, match_date, teams,
             t1, t2, some []⟩, s.analyses_db⟩
          video_id
          ⟨video_id, title, description,
           "uploads/" ++ video_id ++ pyLower (splitextExt filename),
           file_size, none, .UPLOADING, sport_type, match_date, teams,
           t1, t2, some []⟩
          t3 t4 ok (dbGet_dbSet_self _ _ _)
      rw [hp1] at hv1
      rw [hp2] at hv2
      injection hv1 with hv1
      injection hv2 with hv2
      subst hv1
      subst hv2
      exact ⟨rfl, rfl, rfl, rfl, rfl, rfl, h23, h34, le_trans h12 h23,
        le_trans (le_trans h12 h23) h34⟩

/-- Witness fixture for C9: the record created by a concrete upload at
`t1 = 10`, `t2 = 11`. -/
def c9Video : Video :=
  { id := "v1", title := "M", file_path := "uploads/v1.mp4", file_size := 1
    status := .UPLOADING, created_at := 10, updated_at := 11 }

/-- Witness fixture for C9: the state right after that upload. -/
def c9State1 : ServiceState := ⟨[("v1", c9Video)], []⟩

/-- Witness for C9: `c9_updated_at_monotone` discharged on a concrete
upload (`t1,…,t4 = 10,11,12,13`, successful processing). -/
theorem c9_updated_at_monotone_witness :
    (10:ℤ) ≤ 11 ∧ (11:ℤ) ≤ 12 ∧ (12:ℤ) ≤ 13
    ∧ upload_create ⟨[], []⟩ "m.mp4" 1 "M" none none none none "v1" 10 11 none
        = .ok (c9State1, c9Video)
    ∧ (c9Video.created_at = 10 ∧ c9Video.updated_at = 11
        ∧ c9Video.created_at ≤ c9Video.updated_at
        ∧ c9Video.status = VideoStatus.UPLOADING
        ∧ ∀ v1 v2,
            dbGet (process_step1 c9State1 "v1" 12).videos_db "v1" = some v1 →
            dbGet (process_step2 (process_step1 c9State1 "v1" 12) "v1" 13
                true).videos_db "v1" = some v2 →
            v1.status = VideoStatus.PROCESSING
            ∧ v2.status
                = (if true then VideoStatus.COMPLETED else VideoStatus.FAILED)
            ∧ v1.created_at = 10 ∧ v1.updated_at = 12
            ∧ v2.created_at = 10 ∧ v2.updated_at = 13
            ∧ c9Video.updated_at ≤ v1.updated_at
            ∧ v1.updated_at ≤ v2.updated_at
            ∧ v1.created_at ≤ v1.updated_at
            ∧ v2.created_at ≤ v2.updated_at) :=
  ⟨by decide, by decide, by decide, rfl,
   c9_updated_at_monotone ⟨[], []⟩ "m.mp4" 1 "M" none none none none "v1"
     10 11 12 13 true c9State1 c9Video (by decide) (by decide) (by decide) rfl⟩
